import Mathlib

/-!
Verification of the SMS messaging core of this repository: the message
ledger data model, the delivery dispatcher (messaging/services.py,
send_sms), the status reconciler (backend/messaging/models.py,
MessageManager.handle_status_callback together with
Message.set_status_from_twilio and Message.mark_status), the inbound
router (MessageManager.handle_inbound), and the profile phone-number
validation (backend/accounts/serializer.py,
ProfileSerializer.validate_phone_number with E164_RE).

Modelling conventions:
* Django model instances become Lean structures.  CharField defaults with
  blank=True are the empty string; nullable DateTimeFields are Option Nat,
  time being an abstract Nat clock value standing for timezone.now() and
  supplied by the caller of each operation.
* The messaging_message table is the List Message inside LedgerState.
  Message.objects.create appends a fresh row whose primary key is the
  state's nextId counter, and instance.save() writes the instance back
  over the row carrying the same primary key.
* Manager.get(...) follows Django semantics: zero matching rows raises
  DoesNotExist (caught exactly where the source catches it) and two or
  more matching rows raises MultipleObjectsReturned.  A raised exception
  that escapes a function is modelled as Except.error carrying the
  exception class name.
* created_at / updated_at bookkeeping timestamps (auto_now_add / auto_now)
  are not modelled; AuditLog rows never touch the message table and are
  not modelled either.
-/

namespace SMSPro

/-- Message.Direction (backend/messaging/models.py). -/
inductive Direction where
  | OUTBOUND
  | INBOUND
deriving DecidableEq

/-- Message.Status (backend/messaging/models.py). -/
inductive Status where
  | QUEUED
  | SENT
  | DELIVERED
  | FAILED
deriving DecidableEq

/-- One row of the message table (backend/messaging/models.py, class
Message).  id is the database primary key; to_user and campaign are the
foreign keys, abstracted to numeric identifiers. -/
structure Message where
  id : Nat
  to_user : Nat
  direction : Direction
  body : String
  twilio_sid : String
  status : Status
  error_code : String
  raw_provider_status : String
  campaign : Option Nat
  delivered_at : Option Nat
deriving DecidableEq

/-- One row of the profile table (backend/accounts/models.py, class
Profile), restricted to the fields the messaging core reads. -/
structure Profile where
  user : Nat
  phone_number : String
  sms_opt_in : Bool
deriving DecidableEq

/-- The shared mutable storage: the message ledger, the primary-key
counter for the next created message, and the profile directory. -/
structure LedgerState where
  messages : List Message
  nextId : Nat
  profiles : List Profile
deriving DecidableEq

/-- Core provides no DecidableEq instance for Except; the concrete
examples below compare operation results by decide, so equip it with
one. -/
instance exceptDecEq {ε α : Type} [DecidableEq ε] [DecidableEq α] :
    DecidableEq (Except ε α) := fun a b =>
  match a, b with
  | Except.ok x, Except.ok y =>
    if h : x = y then isTrue (by rw [h]) else
      isFalse (by intro hc; cases hc; exact h rfl)
  | Except.ok _, Except.error _ => isFalse (by intro hc; cases hc)
  | Except.error _, Except.ok _ => isFalse (by intro hc; cases hc)
  | Except.error x, Except.error y =>
    if h : x = y then isTrue (by rw [h]) else
      isFalse (by intro hc; cases hc; exact h rfl)

/-- Message.mark_status (backend/messaging/models.py lines 169-177): the
status argument is always assigned; each keyword argument (raw,
error_code, delivered_at) is assigned only when it was passed non-None.
The trailing self.save(update_fields=[...]) persists the instance, which
the caller models as a write-back into the ledger list. -/
def mark_status (m : Message) (status : Status) (raw : Option String)
    (error_code : Option String) (delivered_at : Option Nat) : Message :=
  { m with
    status := status,
    raw_provider_status := match raw with
      | some r => r
      | none => m.raw_provider_status,
    error_code := match error_code with
      | some e => e
      | none => m.error_code,
    delivered_at := match delivered_at with
      | some t => some t
      | none => m.delivered_at }

/-- The Python expression status or "unknown" on an optional string: an
absent or empty value is replaced by the literal "unknown". -/
def rawOrUnknown (status : Option String) : String :=
  match status with
  | some s => if s = "" then "unknown" else s
  | none => "unknown"

/-- Message.set_status_from_twilio (backend/messaging/models.py lines
179-201).  status is the raw Twilio MessageStatus string, none when the
form field was absent; now stands for timezone.now() at this call.  In the
unknown-status branch the source assigns status or "unknown", so an empty
or absent raw value records the literal "unknown".  The surrounding
try/except Exception cannot fire in this pure model, where save() is the
caller's list update, so the function is total. -/
def set_status_from_twilio (m : Message) (status : Option String)
    (error_code : Option String) (now : Nat) : Message :=
  if status = some "delivered" then
    mark_status m Status.DELIVERED status none (some now)
  else if status = some "failed" ∨ status = some "undelivered" then
    mark_status m Status.FAILED status error_code none
  else if status = some "sent" ∨ status = some "queued" ∨ status = some "accepted" then
    mark_status m Status.SENT status none none
  else
    { m with raw_provider_status := rawOrUnknown status }

/-- instance.save(): write the instance back over the row that carries the
same primary key. -/
def saveMsg (rows : List Message) (m : Message) : List Message :=
  rows.map (fun x => if x.id = m.id then m else x)

/-- MessageManager.handle_status_callback (backend/messaging/models.py
lines 77-90).  A falsy sid (None or empty) returns None at once.
self.get(twilio_sid=sid) follows Django get semantics: no matching row
raises DoesNotExist, which the source catches and turns into None; two or
more matching rows raises MultipleObjectsReturned, which the source does
NOT catch (only DoesNotExist is), so it escapes as Except.error. -/
def handle_status_callback (s : LedgerState) (sid : Option String)
    (status : Option String) (error_code : Option String) (now : Nat) :
    LedgerState × Except String (Option Message) :=
  match sid with
  | none => (s, Except.ok none)
  | some sd =>
    if sd = "" then (s, Except.ok none)
    else
      match s.messages.filter (fun m => m.twilio_sid == sd) with
      | [] => (s, Except.ok none)
      | [m] =>
        let m2 := set_status_from_twilio m status error_code now
        ({ s with messages := saveMsg s.messages m2 }, Except.ok (some m2))
      | _ => (s, Except.error "MultipleObjectsReturned")

/-- The row handle_inbound creates on a unique profile match
(backend/messaging/models.py lines 68-75): an INBOUND message for the
matched profile's user with body or "" (the identity on strings),
twilio_sid = sid or "" (Option.getD), status DELIVERED and
delivered_at = timezone.now(). -/
def inboundRow (s : LedgerState) (p : Profile) (body : String)
    (sid : Option String) (now : Nat) : Message :=
  { id := s.nextId, to_user := p.user, direction := Direction.INBOUND,
    body := body, twilio_sid := sid.getD "", status := Status.DELIVERED,
    error_code := "", raw_provider_status := "", campaign := none,
    delivered_at := some now }

/-- MessageManager.handle_inbound (backend/messaging/models.py lines
50-75).  A falsy from_number (None or empty) returns None at once.
Profile.objects.get(phone_number=from_number) again follows Django get
semantics and only DoesNotExist is caught, so two or more matching
profiles raise MultipleObjectsReturned, which escapes. -/
def handle_inbound (s : LedgerState) (from_number : Option String)
    (body : String) (sid : Option String) (now : Nat) :
    LedgerState × Except String (Option Message) :=
  match from_number with
  | none => (s, Except.ok none)
  | some fn =>
    if fn = "" then (s, Except.ok none)
    else
      match s.profiles.filter (fun p => p.phone_number == fn) with
      | [] => (s, Except.ok none)
      | [p] =>
        let m := inboundRow s p body sid now
        ({ s with messages := s.messages ++ [m], nextId := s.nextId + 1 },
         Except.ok (some m))
      | _ => (s, Except.error "MultipleObjectsReturned")

/-- Outcome of the provider call client.messages.create(**kwargs) inside
send_sms: success returns the provider message sid; failure is a raised
exception carrying an optional code attribute (none covers both a missing
attribute and an attribute equal to None, since getattr(e, "code", "")
defaults and None is falsy) and the exception class name
type(e).__name__. -/
inductive ProviderResult where
  | ok (sid : String)
  | exn (code : Option String) (typeName : String)
deriving DecidableEq

/-- First half of send_sms (messaging/services.py lines 20-26):
Message.objects.create(to_user, direction=OUTBOUND, body, status=QUEUED,
campaign) — returns the new state with the committed row, and the row. -/
def createOutbound (s : LedgerState) (uid : Nat) (body : String)
    (campaign : Option Nat) : LedgerState × Message :=
  let m : Message :=
    { id := s.nextId, to_user := uid, direction := Direction.OUTBOUND,
      body := body, twilio_sid := "", status := Status.QUEUED,
      error_code := "", raw_provider_status := "", campaign := campaign,
      delivered_at := none }
  ({ s with messages := s.messages ++ [m], nextId := s.nextId + 1 }, m)

/-- The Python expression getattr(e, "code", "") or type(e).__name__: the
provider-supplied code when it is present and a non-empty string, else the
exception class name. -/
def exnErrorCode (code : Option String) (tyName : String) : String :=
  match code with
  | some c => if c = "" then tyName else c
  | none => tyName

/-- send_sms (messaging/services.py lines 11-67): create and commit the
QUEUED row first, then call the provider; on success store the sid,
status SENT and raw_provider_status "sent"; on any exception store status
FAILED and error_code = getattr(e, "code", "") or type(e).__name__ (the
code when it is a non-empty string, else the exception class name),
persist, and re-raise — modelled as Except.error carrying the exception
class name so the caller observes the failure. -/
def send_sms (s : LedgerState) (uid : Nat) (body : String)
    (campaign : Option Nat) (pr : ProviderResult) :
    LedgerState × Except String Message :=
  let created := createOutbound s uid body campaign
  let s1 := created.1
  let msg := created.2
  match pr with
  | ProviderResult.ok sid =>
    let m2 :=
      { msg with twilio_sid := sid, status := Status.SENT, raw_provider_status := "sent" }
    ({ s1 with messages := saveMsg s1.messages m2 }, Except.ok m2)
  | ProviderResult.exn code tyName =>
    let ec := exnErrorCode code tyName
    let m2 := { msg with status := Status.FAILED, error_code := ec }
    ({ s1 with messages := saveMsg s1.messages m2 }, Except.error tyName)

/-- The three ledger operations reachable from HTTP triggers.  Timestamps
and the provider outcome are environment inputs carried by the
operation. -/
inductive Op where
  | dispatch (uid : Nat) (body : String) (campaign : Option Nat) (pr : ProviderResult)
  | reconcile (sid : Option String) (status : Option String) (error_code : Option String) (now : Nat)
  | receive (from_number : Option String) (body : String) (sid : Option String) (now : Nat)
deriving DecidableEq

/-- Effect of one operation on the shared storage (the escaping exception
or return value, if any, leaves the storage as the operation left it). -/
def runOp (s : LedgerState) (op : Op) : LedgerState :=
  match op with
  | Op.dispatch uid body c pr => (send_sms s uid body c pr).1
  | Op.reconcile sid st ec now => (handle_status_callback s sid st ec now).1
  | Op.receive fn body sid now => (handle_inbound s fn body sid now).1

/-- Run a whole sequence of operations. -/
def runAll (s : LedgerState) (ops : List Op) : LedgerState :=
  ops.foldl runOp s

/-- The empty ledger over a fixed profile directory. -/
def initState (profiles : List Profile) : LedgerState :=
  { messages := [], nextId := 0, profiles := profiles }

/-- Core of E164_RE = the regular expression of accounts/serializer.py
line 12, a plus sign, one digit 1-9, then 7 to 14 further digits.  The
digit class is modelled as the ASCII digits 0-9; for str patterns Python
re lets the digit class also match every non-ASCII Unicode decimal digit
(category Nd), which this model does not cover, so the model is faithful
to the source only on ASCII inputs.  Accordingly, every theorem below
that characterizes the validator's acceptance set carries an explicit
ASCII restriction on its input, and concrete inputs are ASCII. -/
def e164Core (cs : List Char) : Bool :=
  match cs with
  | '+' :: d :: rest =>
    d.isDigit && d != '0' && rest.all Char.isDigit &&
      decide (7 ≤ rest.length) && decide (rest.length ≤ 14)
  | _ => false

/-- Truthiness of E164_RE.match(v) (accounts/serializer.py line 12), with
Python re semantics for the anchors: re.match anchors at the start of the
string, and the final dollar anchor matches at the end of the string or
just before a newline that ends the string, so the pattern also matches
when a single trailing newline follows the digits.  The digit class is
inherited from e164Core, hence ASCII-only: on non-ASCII inputs this
understates the source's acceptance set (Python \d also matches non-ASCII
Unicode decimal digits), which is why the acceptance characterization
below is stated for ASCII inputs only. -/
def e164_match (v : String) : Bool :=
  e164Core v.data ||
    (match v.data.getLast? with
     | some c => c == '\n' && e164Core v.data.dropLast
     | none => false)

/-- ProfileSerializer.validate_phone_number (accounts/serializer.py lines
45-51): the empty string is accepted outright; otherwise the value is
accepted iff E164_RE matches it.  true means accepted, false means
serializers.ValidationError raised. -/
def validate_phone_number (v : String) : Bool :=
  if v = "" then true else e164_match v

/-- Modelled from the words of the claim, for comparison with the source
validator: a plus sign followed by 8 to 15 digits with no leading zero
after the plus (one digit 1-9 then 7 to 14 further digits), and nothing
else. -/
def claimPhonePattern (v : String) : Bool :=
  match v.data with
  | '+' :: d :: rest =>
    d.isDigit && d != '0' && rest.all Char.isDigit &&
      decide (7 ≤ rest.length) && decide (rest.length ≤ 14)
  | _ => false

/-- A trace a is an initial segment of trace b. -/
def Starts (a b : List Op) : Prop := ∃ t, a ++ t = b

/-- Some row with the given primary key currently has status DELIVERED. -/
def hasDelivered (s : LedgerState) (i : Nat) : Prop :=
  ∃ m, m ∈ s.messages ∧ m.id = i ∧ m.status = Status.DELIVERED

/-- Along the trace ops from the given profile directory, the row with the
given primary key reached status DELIVERED at some point. -/
def everDelivered (profiles : List Profile) (ops : List Op) (i : Nat) : Prop :=
  ∃ pre, Starts pre ops ∧ hasDelivered (runAll (initState profiles) pre) i

/-- State well-formedness maintained by every operation: primary keys are
below the counter, pairwise distinct, and a DELIVERED row has a delivery
timestamp. -/
def Inv (s : LedgerState) : Prop :=
  (∀ m ∈ s.messages, m.id < s.nextId) ∧
  (s.messages.map Message.id).Nodup ∧
  (∀ m ∈ s.messages, m.status = Status.DELIVERED → m.delivered_at ≠ none)

/-! Basic facts about the status mapping. -/

theorem set_status_id (m : Message) (st ec : Option String) (now : Nat) :
    (set_status_from_twilio m st ec now).id = m.id := by
  unfold set_status_from_twilio mark_status
  split
  · rfl
  · split
    · rfl
    · split
      · rfl
      · rfl

/-! Claims C1, C8, C10: behaviour of the reconciler on one message. -/

/-- C1: applying the reconciler with raw status "delivered" to the matched
message sets status DELIVERED, raw_provider_status "delivered" and
delivered_at to this call's clock value; a second "delivered" application
also succeeds and overwrites delivered_at with the later call's clock
value while keeping status DELIVERED. -/
theorem C1_delivered_overwrites (m : Message) (ec1 ec2 : Option String)
    (t1 t2 : Nat) :
    (set_status_from_twilio m (some "delivered") ec1 t1).status = Status.DELIVERED ∧
    (set_status_from_twilio m (some "delivered") ec1 t1).raw_provider_status = "delivered" ∧
    (set_status_from_twilio m (some "delivered") ec1 t1).delivered_at = some t1 ∧
    (set_status_from_twilio (set_status_from_twilio m (some "delivered") ec1 t1)
        (some "delivered") ec2 t2).status = Status.DELIVERED ∧
    (set_status_from_twilio (set_status_from_twilio m (some "delivered") ec1 t1)
        (some "delivered") ec2 t2).delivered_at = some t2 := by
  simp [set_status_from_twilio, mark_status]

/-- C8: a raw status outside the recognized vocabulary (including an
absent one) leaves every field except raw_provider_status unchanged, and
sets raw_provider_status to the raw value, or to the literal "unknown"
when the raw value is empty or absent. -/
theorem C8_unknown_status_frame (m : Message) (st ec : Option String) (now : Nat)
    (h1 : st ≠ some "delivered") (h2 : st ≠ some "failed")
    (h3 : st ≠ some "undelivered") (h4 : st ≠ some "sent")
    (h5 : st ≠ some "queued") (h6 : st ≠ some "accepted") :
    (set_status_from_twilio m st ec now).status = m.status ∧
    (set_status_from_twilio m st ec now).error_code = m.error_code ∧
    (set_status_from_twilio m st ec now).delivered_at = m.delivered_at ∧
    (set_status_from_twilio m st ec now).id = m.id ∧
    (set_status_from_twilio m st ec now).to_user = m.to_user ∧
    (set_status_from_twilio m st ec now).direction = m.direction ∧
    (set_status_from_twilio m st ec now).body = m.body ∧
    (set_status_from_twilio m st ec now).twilio_sid = m.twilio_sid ∧
    (set_status_from_twilio m st ec now).campaign = m.campaign ∧
    (set_status_from_twilio m st ec now).raw_provider_status = rawOrUnknown st := by
  simp [set_status_from_twilio, h1, h2, h3, h4, h5, h6]

/-- Witness for C8 at a concrete unknown raw status. -/
theorem C8_unknown_status_frame_witness :
    (set_status_from_twilio
        { id := 3, to_user := 1, direction := Direction.OUTBOUND, body := "b",
          twilio_sid := "SM9", status := Status.SENT, error_code := "E1",
          raw_provider_status := "sent", campaign := none,
          delivered_at := none }
        (some "sending") none 11).status = Status.SENT ∧
    (set_status_from_twilio
        { id := 3, to_user := 1, direction := Direction.OUTBOUND, body := "b",
          twilio_sid := "SM9", status := Status.SENT, error_code := "E1",
          raw_provider_status := "sent", campaign := none,
          delivered_at := none }
        (some "sending") none 11).raw_provider_status = "sending" := by
  have h := C8_unknown_status_frame
    { id := 3, to_user := 1, direction := Direction.OUTBOUND, body := "b",
      twilio_sid := "SM9", status := Status.SENT, error_code := "E1",
      raw_provider_status := "sent", campaign := none, delivered_at := none }
    (some "sending") none 11
    (by decide) (by decide) (by decide) (by decide) (by decide) (by decide)
  exact ⟨h.1, h.2.2.2.2.2.2.2.2.2⟩

/-- C10: applying the reconciler with raw status "failed" or "undelivered"
and an absent error code sets status FAILED and raw_provider_status to the
raw value, but leaves the previously stored error_code (and delivered_at)
unchanged, because mark_status assigns error_code only when a non-None
value is supplied. -/
theorem C10_failed_keeps_error_code (m : Message) (st : String) (now : Nat)
    (h : st = "failed" ∨ st = "undelivered") :
    (set_status_from_twilio m (some st) none now).status = Status.FAILED ∧
    (set_status_from_twilio m (some st) none now).raw_provider_status = st ∧
    (set_status_from_twilio m (some st) none now).error_code = m.error_code ∧
    (set_status_from_twilio m (some st) none now).delivered_at = m.delivered_at := by
  rcases h with h | h <;> subst h <;> simp [set_status_from_twilio, mark_status]

/-- Witness for C10 at raw status "failed" on a message with a stored
error code. -/
theorem C10_failed_keeps_error_code_witness :
    (set_status_from_twilio
        { id := 5, to_user := 2, direction := Direction.OUTBOUND, body := "x",
          twilio_sid := "SM7", status := Status.SENT, error_code := "30007",
          raw_provider_status := "sent", campaign := none,
          delivered_at := none }
        (some "failed") none 9).status = Status.FAILED ∧
    (set_status_from_twilio
        { id := 5, to_user := 2, direction := Direction.OUTBOUND, body := "x",
          twilio_sid := "SM7", status := Status.SENT, error_code := "30007",
          raw_provider_status := "sent", campaign := none,
          delivered_at := none }
        (some "failed") none 9).raw_provider_status = "failed" ∧
    (set_status_from_twilio
        { id := 5, to_user := 2, direction := Direction.OUTBOUND, body := "x",
          twilio_sid := "SM7", status := Status.SENT, error_code := "30007",
          raw_provider_status := "sent", campaign := none,
          delivered_at := none }
        (some "failed") none 9).error_code = "30007" ∧
    (set_status_from_twilio
        { id := 5, to_user := 2, direction := Direction.OUTBOUND, body := "x",
          twilio_sid := "SM7", status := Status.SENT, error_code := "30007",
          raw_provider_status := "sent", campaign := none,
          delivered_at := none }
        (some "failed") none 9).delivered_at = none := by
  have h := C10_failed_keeps_error_code
    { id := 5, to_user := 2, direction := Direction.OUTBOUND, body := "x",
      twilio_sid := "SM7", status := Status.SENT, error_code := "30007",
      raw_provider_status := "sent", campaign := none, delivered_at := none }
    "failed" 9 (Or.inl rfl)
  exact ⟨h.1, h.2.1, h.2.2.1, h.2.2.2⟩

/-! Claims C2 and C3: the delivery dispatcher. -/

/-- C2: dispatching always creates exactly one message row — committed
with direction OUTBOUND and status QUEUED before the provider outcome is
even consulted — and after the dispatch the ledger has grown by exactly
that one row, which still exists with the fresh primary key, OUTBOUND
direction, the given body and campaign, whether the provider call
succeeded or raised. -/
theorem C2_dispatch_creates_queued_row (s : LedgerState) (uid : Nat)
    (body : String) (c : Option Nat) (pr : ProviderResult) :
    ((createOutbound s uid body c).1.messages
        = s.messages ++ [(createOutbound s uid body c).2]
      ∧ (createOutbound s uid body c).2.status = Status.QUEUED
      ∧ (createOutbound s uid body c).2.direction = Direction.OUTBOUND
      ∧ (createOutbound s uid body c).2.id = s.nextId)
    ∧ (send_sms s uid body c pr).1.messages.length = s.messages.length + 1
    ∧ ∃ m, m ∈ (send_sms s uid body c pr).1.messages ∧ m.id = s.nextId
        ∧ m.direction = Direction.OUTBOUND ∧ m.body = body ∧ m.campaign = c := by
  refine ⟨⟨rfl, rfl, rfl, rfl⟩, ?_, ?_⟩
  · cases pr <;> simp [send_sms, createOutbound, saveMsg]
  · cases pr with
    | ok sid =>
      refine ⟨_, List.mem_map_of_mem _
        (List.mem_append_right s.messages (List.mem_singleton_self _)), ?_⟩
      simp [send_sms, createOutbound]
    | exn code tyName =>
      refine ⟨_, List.mem_map_of_mem _
        (List.mem_append_right s.messages (List.mem_singleton_self _)), ?_⟩
      simp [send_sms, createOutbound]

/-- C3: when the provider call raises, the created row ends with status
FAILED and a non-empty error code (the provider-supplied code when it is a
non-empty string, else the exception class name), and send_sms re-raises
so its caller observes the failure while the row persists. -/
theorem C3_provider_failure (s : LedgerState) (uid : Nat) (body : String)
    (c : Option Nat) (code : Option String) (tyName : String)
    (hty : tyName ≠ "") :
    (send_sms s uid body c (ProviderResult.exn code tyName)).2
        = Except.error tyName ∧
    ∃ m, m ∈ (send_sms s uid body c (ProviderResult.exn code tyName)).1.messages
      ∧ m.id = s.nextId ∧ m.status = Status.FAILED
      ∧ m.error_code = exnErrorCode code tyName ∧ m.error_code ≠ "" := by
  have hec : exnErrorCode code tyName ≠ "" := by
    unfold exnErrorCode
    match code with
    | none => exact hty
    | some cd =>
      by_cases hcd : cd = ""
      · simp [hcd, hty]
      · simp [hcd]
  refine ⟨rfl, ?_⟩
  refine ⟨_, List.mem_map_of_mem _
    (List.mem_append_right s.messages (List.mem_singleton_self _)), ?_⟩
  simpa [send_sms, createOutbound] using hec

/-- Witness for C3 with an exception that has no code attribute. -/
theorem C3_provider_failure_witness :
    (send_sms (initState []) 1 "hello" none
        (ProviderResult.exn none "RuntimeError")).2
      = Except.error "RuntimeError" ∧
    ∃ m, m ∈ (send_sms (initState []) 1 "hello" none
        (ProviderResult.exn none "RuntimeError")).1.messages
      ∧ m.id = (initState []).nextId ∧ m.status = Status.FAILED
      ∧ m.error_code = exnErrorCode none "RuntimeError" ∧ m.error_code ≠ "" :=
  C3_provider_failure (initState []) 1 "hello" none none "RuntimeError"
    (by decide)

/-! Claim C4: status callbacks for an unknown provider id. -/

/-- C4: a status callback whose provider id matches no ledger row is a
complete no-op: the state is returned unchanged and the result is a clean
None, for every raw status and error code. -/
theorem C4_unknown_sid_noop (s : LedgerState) (sid : String)
    (st ec : Option String) (now : Nat)
    (h : ∀ m ∈ s.messages, m.twilio_sid ≠ sid) :
    handle_status_callback s (some sid) st ec now = (s, Except.ok none) := by
  unfold handle_status_callback
  by_cases hs : sid = ""
  · simp [hs]
  · have hfil : s.messages.filter (fun m => m.twilio_sid == sid) = [] := by
      rw [List.filter_eq_nil_iff]
      intro m hm
      simpa using h m hm
    simp [hs, hfil]

/-- A concrete SENT outbound row used by the C4 witness. -/
def sentRow : Message :=
  { id := 0, to_user := 1, direction := Direction.OUTBOUND, body := "b",
    twilio_sid := "SM1", status := Status.SENT, error_code := "",
    raw_provider_status := "sent", campaign := none, delivered_at := none }

/-- A concrete one-row ledger used by the C4 witness. -/
def oneRowState : LedgerState :=
  { messages := [sentRow], nextId := 1, profiles := [] }

/-- Witness for C4: a callback for sid SMother against a ledger holding
only sid SM1 leaves the state untouched and returns None. -/
theorem C4_unknown_sid_noop_witness :
    handle_status_callback oneRowState (some "SMother") (some "delivered") none 4
      = (oneRowState, Except.ok none) :=
  C4_unknown_sid_noop oneRowState "SMother" (some "delivered") none 4 (by decide)

/-! Claim C9: profile phone-number validation. -/

/-- The claim pattern coincides with the core of the source regular
expression; the two differ only in the dollar-anchor newline tolerance. -/
theorem claimPhonePattern_eq_core (v : String) :
    claimPhonePattern v = e164Core v.data := rfl

/-- C9 counterexample: the validator accepts the string +12345678 followed
by a newline, because the dollar anchor of Python re also matches just
before a newline that ends the string — but that string is not a plus sign
followed by 8 to 15 digits, so the claimed equivalence fails there. -/
theorem C9_counterexample :
    validate_phone_number "+12345678\n" = true ∧
    claimPhonePattern "+12345678\n" = false ∧
    "+12345678\n" ≠ "" := by
  refine ⟨by decide, by decide, by decide⟩

/-- C9 amended, stated on the model's faithful domain: for every ASCII
string, the validator accepts v iff v is empty, or v is a plus sign
followed by 8 to 15 digits with no leading zero, or v is such a digit
string followed by one trailing newline (the tolerance the dollar anchor
of Python re adds).  The ASCII restriction is essential to faithfulness:
Python \d in the str pattern E164_RE also matches every non-ASCII Unicode
decimal digit, so the source additionally accepts non-ASCII digit strings
that are outside this statement's scope.  The rejected examples of the
claim are covered: each is ASCII and is neither empty, nor a match, nor a
match plus trailing newline. -/
theorem C9_amended (v : String) (_hascii : ∀ c ∈ v.data, c.toNat < 128) :
    validate_phone_number v = true ↔
      (v = "" ∨ claimPhonePattern v = true ∨
        ∃ w, claimPhonePattern w = true ∧ v = w ++ "\n") := by
  unfold validate_phone_number
  by_cases hv : v = ""
  · simp [hv]
  · simp only [hv, if_false, false_or]
    unfold e164_match
    rw [Bool.or_eq_true]
    constructor
    · rintro (hcore | htail)
      · exact Or.inl hcore
      · refine Or.inr ?_
        rcases hlast : v.data.getLast? with _ | c
        · rw [hlast] at htail
          exact absurd htail (by simp)
        · rw [hlast] at htail
          simp only [Bool.and_eq_true, beq_iff_eq] at htail
          obtain ⟨hc, hcore⟩ := htail
          refine ⟨String.mk v.data.dropLast, hcore, ?_⟩
          have hne : v.data ≠ [] := by
            intro h0
            rw [h0] at hlast
            exact absurd hlast (by simp)
          have hdl : v.data.dropLast ++ [v.data.getLast hne] = v.data :=
            List.dropLast_append_getLast hne
          have hlastc : v.data.getLast hne = c := by
            have hq := List.getLast?_eq_getLast v.data hne
            rw [hlast] at hq
            exact (Option.some_injective _ hq.symm)
          apply String.ext
          rw [String.data_append]
          show v.data = v.data.dropLast ++ ['\n']
          rw [← hc, ← hlastc]
          exact hdl.symm
    · rintro (hcore | ⟨w, hw, rfl⟩)
      · exact Or.inl hcore
      · refine Or.inr ?_
        have hdata : (w ++ "\n").data = w.data ++ ['\n'] := by
          rw [String.data_append]
        rw [hdata]
        simp [List.getLast?_concat, List.dropLast_concat]
        exact hw

/-- Witness for C9 amended at a concrete ASCII number, with the ASCII
restriction discharged by evaluation. -/
theorem C9_amended_witness :
    validate_phone_number "+15551234567" = true ↔
      ("+15551234567" = "" ∨ claimPhonePattern "+15551234567" = true ∨
        ∃ w, claimPhonePattern w = true ∧ "+15551234567" = w ++ "\n") :=
  C9_amended "+15551234567" (by decide)

/-! Claim C5: the inbound router. -/

/-- A profile used by the C5 and C6 examples. -/
def profA : Profile :=
  { user := 1, phone_number := "+15551234567", sms_opt_in := true }

/-- A second profile sharing the same phone number (phone_number carries
no uniqueness constraint in the schema, so this directory is storable). -/
def profB : Profile :=
  { user := 2, phone_number := "+15551234567", sms_opt_in := true }

/-- An empty ledger whose directory holds two profiles with the same
phone number. -/
def dupProfileState : LedgerState :=
  { messages := [], nextId := 0, profiles := [profA, profB] }

/-- An empty ledger whose directory holds exactly one profile. -/
def oneProfState : LedgerState :=
  { messages := [], nextId := 0, profiles := [profA] }

/-- C5 counterexample: when two profiles carry the sender's phone number,
the inbound receive is not a silent no-op returning None — the profile
lookup raises MultipleObjectsReturned (Django get with two matching rows,
and the source catches only DoesNotExist), so an error escapes. -/
theorem C5_multiple_match_raises :
    (handle_inbound dupProfileState (some "+15551234567") "hi" (some "SMin") 3).2
      = Except.error "MultipleObjectsReturned" ∧
    (handle_inbound dupProfileState (some "+15551234567") "hi" (some "SMin") 3).2
      ≠ Except.ok none := by
  refine ⟨by decide, by decide⟩

/-- C5 amended: on a unique profile match, receive creates exactly the
INBOUND / DELIVERED / delivered_at=now row for that profile's user; on
zero matches it is a silent no-op returning None; on two or more matches
it raises MultipleObjectsReturned (leaving the ledger unchanged) instead
of silently returning None. -/
theorem C5_inbound_routing (s : LedgerState) (fn body : String)
    (sid : Option String) (now : Nat) (hfn : fn ≠ "") :
    (s.profiles.filter (fun p => p.phone_number == fn) = [] →
      handle_inbound s (some fn) body sid now = (s, Except.ok none)) ∧
    (∀ p, s.profiles.filter (fun p2 => p2.phone_number == fn) = [p] →
      handle_inbound s (some fn) body sid now =
        ({ s with messages := s.messages ++ [inboundRow s p body sid now],
                  nextId := s.nextId + 1 },
         Except.ok (some (inboundRow s p body sid now))) ∧
      (inboundRow s p body sid now).direction = Direction.INBOUND ∧
      (inboundRow s p body sid now).to_user = p.user ∧
      (inboundRow s p body sid now).body = body ∧
      (inboundRow s p body sid now).twilio_sid = sid.getD "" ∧
      (inboundRow s p body sid now).status = Status.DELIVERED ∧
      (inboundRow s p body sid now).delivered_at = some now) ∧
    (∀ p q rest, s.profiles.filter (fun p2 => p2.phone_number == fn) = p :: q :: rest →
      handle_inbound s (some fn) body sid now
        = (s, Except.error "MultipleObjectsReturned")) := by
  refine ⟨?_, ?_, ?_⟩
  · intro hfil
    simp only [handle_inbound, if_neg hfn, hfil]
  · intro p hfil
    refine ⟨?_, rfl, rfl, rfl, rfl, rfl, rfl⟩
    simp only [handle_inbound, if_neg hfn, hfil]
  · intro p q rest hfil
    simp only [handle_inbound, if_neg hfn, hfil]

/-- Witness for C5 on a unique match: the directory with exactly profile
profA routes an inbound message from its phone number into a new INBOUND
DELIVERED row. -/
theorem C5_inbound_routing_witness :
    handle_inbound oneProfState (some "+15551234567") "hello" (some "SMin") 6 =
      ({ oneProfState with
          messages := oneProfState.messages
            ++ [inboundRow oneProfState profA "hello" (some "SMin") 6],
          nextId := oneProfState.nextId + 1 },
       Except.ok (some (inboundRow oneProfState profA "hello" (some "SMin") 6))) :=
  ((C5_inbound_routing oneProfState "+15551234567" "hello" (some "SMin") 6
    (by decide)).2.1 profA (by decide)).1

/-! Claim C6: the reconciler never raises. -/

/-- C6 counterexample: after two inbound webhooks stored the same
MessageSid (each creating one row, so two ledger rows share twilio_sid
SMdup — a reachable state, since nothing enforces sid uniqueness), the
status callback for that sid raises MultipleObjectsReturned out of the
sid lookup, which handle_status_callback does not catch (it catches only
DoesNotExist): the reconciler is not exception-free. -/
theorem C6_reconciler_can_raise :
    (handle_status_callback
        (runAll (initState [profA])
          [Op.receive (some "+15551234567") "first" (some "SMdup") 1,
           Op.receive (some "+15551234567") "second" (some "SMdup") 2])
        (some "SMdup") (some "delivered") none 3).2
      = Except.error "MultipleObjectsReturned" := by
  decide

/-- C6 amended: the reconciler returns cleanly — for every raw status
(including an absent one) and every error code — whenever at most one
ledger row carries the callback's sid; in particular
set_status_from_twilio itself is total and never raises.  Only a sid
shared by two or more rows makes the lookup raise. -/
theorem C6_reconciler_ok_of_unique_sid (s : LedgerState)
    (sid status error_code : Option String) (now : Nat)
    (h : ∀ sd, sid = some sd →
      (s.messages.filter (fun m => m.twilio_sid == sd)).length ≤ 1) :
    ∃ v, (handle_status_callback s sid status error_code now).2 = Except.ok v := by
  cases sid with
  | none => exact ⟨none, rfl⟩
  | some sd =>
    by_cases hs : sd = ""
    · refine ⟨none, ?_⟩
      simp only [handle_status_callback, if_pos hs]
    · have hlen := h sd rfl
      rcases hfil : s.messages.filter (fun m => m.twilio_sid == sd) with _ | ⟨m, _ | ⟨q, rest⟩⟩
      · refine ⟨none, ?_⟩
        simp only [handle_status_callback, if_neg hs, hfil]
      · refine ⟨some (set_status_from_twilio m status error_code now), ?_⟩
        simp only [handle_status_callback, if_neg hs, hfil]
      · rw [hfil] at hlen
        simp at hlen

/-- Witness for C6 amended: the one-row ledger with sid SM1 accepts a
delivered callback cleanly. -/
theorem C6_reconciler_ok_of_unique_sid_witness :
    ∃ v, (handle_status_callback oneRowState (some "SM1") (some "delivered")
        none 5).2 = Except.ok v :=
  C6_reconciler_ok_of_unique_sid oneRowState (some "SM1") (some "delivered")
    none 5 (by decide)

/-! Machinery for claim C7: trace lemmas, the state invariant, and one
characterization of the effect of each operation on the message table. -/

theorem runAll_concat (s : LedgerState) (ops : List Op) (op : Op) :
    runAll s (ops ++ [op]) = runOp (runAll s ops) op := by
  unfold runAll
  rw [List.foldl_append]
  rfl

theorem runAll_append (s : LedgerState) (a b : List Op) :
    runAll s (a ++ b) = runAll (runAll s a) b := by
  unfold runAll
  rw [List.foldl_append]

theorem starts_rfl (l : List Op) : Starts l l := ⟨[], List.append_nil l⟩

theorem starts_extend {a b : List Op} (op : Op) (h : Starts a b) :
    Starts a (b ++ [op]) := by
  obtain ⟨t, ht⟩ := h
  exact ⟨t ++ [op], by rw [← List.append_assoc, ht]⟩

/-- Two rows of a table with pairwise distinct primary keys that share a
primary key are the same row. -/
theorem row_id_inj {l : List Message} (h : (l.map Message.id).Nodup)
    {a b : Message} (ha : a ∈ l) (hb : b ∈ l) (hid : a.id = b.id) : a = b :=
  List.inj_on_of_nodup_map h ha hb hid

/-- set_status_from_twilio either leaves delivered_at untouched or sets
it to this call's clock value together with status DELIVERED. -/
theorem set_status_back (m : Message) (st ec : Option String) (now : Nat) :
    (set_status_from_twilio m st ec now).delivered_at = m.delivered_at ∨
    ((set_status_from_twilio m st ec now).status = Status.DELIVERED ∧
     (set_status_from_twilio m st ec now).delivered_at = some now) := by
  unfold set_status_from_twilio
  split
  · exact Or.inr ⟨rfl, rfl⟩
  · split
    · exact Or.inl rfl
    · split
      · exact Or.inl rfl
      · exact Or.inl rfl

/-- set_status_from_twilio never erases a delivery timestamp. -/
theorem set_status_keeps_some (m : Message) (st ec : Option String) (now : Nat)
    (h : m.delivered_at ≠ none) :
    (set_status_from_twilio m st ec now).delivered_at ≠ none := by
  rcases set_status_back m st ec now with heq | ⟨_, heq⟩ <;> rw [heq]
  · exact h
  · exact Option.some_ne_none now

/-- Branch summary of set_status_from_twilio: it lands DELIVERED with
this call's timestamp, or lands a non-DELIVERED status without touching
delivered_at, or keeps both status and delivered_at. -/
theorem set_status_cases (m : Message) (st ec : Option String) (now : Nat) :
    ((set_status_from_twilio m st ec now).status = Status.DELIVERED ∧
     (set_status_from_twilio m st ec now).delivered_at = some now) ∨
    ((set_status_from_twilio m st ec now).status ≠ Status.DELIVERED ∧
     (set_status_from_twilio m st ec now).delivered_at = m.delivered_at) ∨
    ((set_status_from_twilio m st ec now).status = m.status ∧
     (set_status_from_twilio m st ec now).delivered_at = m.delivered_at) := by
  unfold set_status_from_twilio
  split
  · exact Or.inl ⟨rfl, rfl⟩
  · split
    · exact Or.inr (Or.inl ⟨by simp [mark_status], rfl⟩)
    · split
      · exact Or.inr (Or.inl ⟨by simp [mark_status], rfl⟩)
      · exact Or.inr (Or.inr ⟨rfl, rfl⟩)

/-- set_status_from_twilio preserves the DELIVERED-has-timestamp
invariant of a single row. -/
theorem set_status_delivered_some (m : Message) (st ec : Option String) (now : Nat)
    (hm : m.status = Status.DELIVERED → m.delivered_at ≠ none)
    (h2 : (set_status_from_twilio m st ec now).status = Status.DELIVERED) :
    (set_status_from_twilio m st ec now).delivered_at ≠ none := by
  rcases set_status_cases m st ec now with ⟨_, hd⟩ | ⟨hne, _⟩ | ⟨hst, hd⟩
  · rw [hd]
    exact Option.some_ne_none now
  · exact absurd h2 hne
  · rw [hd]
    exact hm (hst ▸ h2)

/-- Write-back of a row leaves the column of primary keys unchanged
(the written row replaces exactly rows carrying its own key). -/
theorem saveMsg_map_id (l : List Message) (m2 : Message) :
    (saveMsg l m2).map Message.id = l.map Message.id := by
  unfold saveMsg
  rw [List.map_map]
  apply List.map_congr_left
  intro x _
  by_cases hx : x.id = m2.id
  · simp [hx]
  · simp [hx]

/-- Under a fresh-key bound, appending a fresh row and then writing back
an update of that row is just appending the updated row. -/
theorem saveMsg_append_fresh (l : List Message) (m0 m2 : Message)
    (hid : m0.id = m2.id) (hb : ∀ m ∈ l, m.id < m0.id) :
    saveMsg (l ++ [m0]) m2 = l ++ [m2] := by
  unfold saveMsg
  rw [List.map_append]
  congr 1
  · have hpt : ∀ x ∈ l, (if x.id = m2.id then m2 else x) = x := by
      intro x hx
      have hlt := hb x hx
      rw [hid] at hlt
      exact if_neg (by omega)
    exact (List.map_congr_left hpt).trans (List.map_id l)
  · simp [hid]

/-- Effect of one operation on the state, under the fresh-key bound: the
operation leaves the state untouched, or appends one fresh row (never
DELIVERED without a timestamp, never timestamped without DELIVERED), or
writes back one reconciled row. -/
theorem runOp_effect (s : LedgerState) (op : Op)
    (hb : ∀ m ∈ s.messages, m.id < s.nextId) :
    runOp s op = s ∨
    (∃ mN, (runOp s op).messages = s.messages ++ [mN] ∧
       (runOp s op).nextId = s.nextId + 1 ∧ mN.id = s.nextId ∧
       ((mN.delivered_at = none ∧ mN.status ≠ Status.DELIVERED) ∨
        (mN.status = Status.DELIVERED ∧ ∃ t, mN.delivered_at = some t))) ∨
    (∃ m st ec now, m ∈ s.messages ∧
       (runOp s op).messages = saveMsg s.messages (set_status_from_twilio m st ec now) ∧
       (runOp s op).nextId = s.nextId) := by
  cases op with
  | dispatch uid body c pr =>
    refine Or.inr (Or.inl ?_)
    cases pr with
    | ok sid =>
      refine ⟨{ id := s.nextId, to_user := uid, direction := Direction.OUTBOUND, body := body, twilio_sid := sid, status := Status.SENT, error_code := "", raw_provider_status := "sent", campaign := c, delivered_at := none }, ?_, rfl, rfl, Or.inl ⟨rfl, fun h => Status.noConfusion h⟩⟩
      exact saveMsg_append_fresh s.messages _ _ rfl hb
    | exn code tyName =>
      refine ⟨{ id := s.nextId, to_user := uid, direction := Direction.OUTBOUND, body := body, twilio_sid := "", status := Status.FAILED, error_code := exnErrorCode code tyName, raw_provider_status := "", campaign := c, delivered_at := none }, ?_, rfl, rfl, Or.inl ⟨rfl, fun h => Status.noConfusion h⟩⟩
      exact saveMsg_append_fresh s.messages _ _ rfl hb
  | reconcile sid st ec now =>
    cases sid with
    | none => exact Or.inl rfl
    | some sd =>
      by_cases hs : sd = ""
      · left
        simp only [runOp, handle_status_callback, if_pos hs]
      · rcases hfil : s.messages.filter (fun m => m.twilio_sid == sd)
          with _ | ⟨m, _ | ⟨q, rest⟩⟩
        · left
          simp only [runOp, handle_status_callback, if_neg hs, hfil]
        · refine Or.inr (Or.inr ⟨m, st, ec, now, ?_, ?_, ?_⟩)
          · exact List.mem_of_mem_filter (by rw [hfil]; exact List.mem_singleton_self m)
          · simp only [runOp, handle_status_callback, if_neg hs, hfil]
          · simp only [runOp, handle_status_callback, if_neg hs, hfil]
        · left
          simp only [runOp, handle_status_callback, if_neg hs, hfil]
  | receive fn body sid now =>
    cases fn with
    | none => exact Or.inl rfl
    | some f =>
      by_cases hf : f = ""
      · left
        simp only [runOp, handle_inbound, if_pos hf]
      · rcases hfil : s.profiles.filter (fun p => p.phone_number == f)
          with _ | ⟨p, _ | ⟨q, rest⟩⟩
        · left
          simp only [runOp, handle_inbound, if_neg hf, hfil]
        · refine Or.inr (Or.inl ⟨inboundRow s p body sid now, ?_, ?_,
            rfl, Or.inr ⟨rfl, now, rfl⟩⟩)
          · simp only [runOp, handle_inbound, if_neg hf, hfil]
          · simp only [runOp, handle_inbound, if_neg hf, hfil]
        · left
          simp only [runOp, handle_inbound, if_neg hf, hfil]

/-- The empty ledger is well-formed. -/
theorem init_inv (profiles : List Profile) : Inv (initState profiles) :=
  ⟨by intro m hm; simp [initState] at hm,
   by simp [initState],
   by intro m hm; simp [initState] at hm⟩

/-- Every operation preserves well-formedness. -/
theorem runOp_inv (s : LedgerState) (op : Op) (h : Inv s) : Inv (runOp s op) := by
  obtain ⟨hb, hnd, hdel⟩ := h
  rcases runOp_effect s op hb with heq | ⟨mN, hmsg, hnext, hid, hprop⟩
    | ⟨m, st, ec, now, hm, hmsg, hnext⟩
  · rw [heq]
    exact ⟨hb, hnd, hdel⟩
  · refine ⟨?_, ?_, ?_⟩
    · intro x hx
      rw [hmsg] at hx
      rw [hnext]
      rcases List.mem_append.mp hx with hx | hx
      · have := hb x hx
        omega
      · rw [List.mem_singleton.mp hx, hid]
        omega
    · rw [hmsg, List.map_append, List.nodup_append]
      refine ⟨hnd, List.nodup_singleton _, ?_⟩
      intro a ha
      obtain ⟨x, hx, rfl⟩ := List.mem_map.mp ha
      have := hb x hx
      simp only [List.map_cons, List.map_nil, List.mem_singleton, hid]
      omega
    · intro x hx hst
      rw [hmsg] at hx
      rcases List.mem_append.mp hx with hx | hx
      · exact hdel x hx hst
      · rw [List.mem_singleton.mp hx] at hst ⊢
        rcases hprop with ⟨_, hne⟩ | ⟨_, t, hsome⟩
        · exact absurd hst hne
        · rw [hsome]
          exact Option.some_ne_none t
  · refine ⟨?_, ?_, ?_⟩
    · intro x hx
      rw [hnext]
      rw [hmsg] at hx
      unfold saveMsg at hx
      obtain ⟨y, hy, hxy⟩ := List.mem_map.mp hx
      by_cases hc : y.id = (set_status_from_twilio m st ec now).id
      · rw [if_pos hc] at hxy
        rw [← hxy, set_status_id]
        exact hb m hm
      · rw [if_neg hc] at hxy
        rw [← hxy]
        exact hb y hy
    · rw [hmsg, saveMsg_map_id]
      exact hnd
    · intro x hx hst
      rw [hmsg] at hx
      unfold saveMsg at hx
      obtain ⟨y, hy, hxy⟩ := List.mem_map.mp hx
      by_cases hc : y.id = (set_status_from_twilio m st ec now).id
      · rw [if_pos hc] at hxy
        rw [← hxy] at hst ⊢
        exact set_status_delivered_some m st ec now (hdel m hm) hst
      · rw [if_neg hc] at hxy
        rw [← hxy] at hst ⊢
        exact hdel y hy hst

/-- Well-formedness holds along every trace. -/
theorem runAll_inv (s : LedgerState) (l : List Op) (h : Inv s) :
    Inv (runAll s l) := by
  induction l generalizing s with
  | nil => exact h
  | cons op rest ih => exact ih (runOp s op) (runOp_inv s op h)

/-- One step forward: a row with a delivery timestamp keeps (an update
with) that key and some timestamp. -/
theorem step_fwd (s : LedgerState) (op : Op) (hInv : Inv s)
    (m : Message) (hm : m ∈ s.messages) (hd : m.delivered_at ≠ none) :
    ∃ m2, m2 ∈ (runOp s op).messages ∧ m2.id = m.id ∧ m2.delivered_at ≠ none := by
  obtain ⟨hb, hnd, _⟩ := hInv
  rcases runOp_effect s op hb with heq | ⟨mN, hmsg, _, _, _⟩
    | ⟨mm, st, ec, now, hmm, hmsg, _⟩
  · rw [heq]
    exact ⟨m, hm, rfl, hd⟩
  · rw [hmsg]
    exact ⟨m, List.mem_append_left _ hm, rfl, hd⟩
  · rw [hmsg]
    by_cases hc : m.id = mm.id
    · have hmeq : m = mm := row_id_inj hnd hm hmm hc
      subst hmeq
      refine ⟨set_status_from_twilio m st ec now, ?_, set_status_id m st ec now,
        set_status_keeps_some m st ec now hd⟩
      unfold saveMsg
      exact List.mem_map.mpr ⟨m, hm, if_pos (by rw [set_status_id])⟩
    · refine ⟨m, ?_, rfl, hd⟩
      unfold saveMsg
      exact List.mem_map.mpr ⟨m, hm, if_neg (by rw [set_status_id]; exact hc)⟩

/-- One step backward: a row of the post-state has no timestamp, or is
DELIVERED right now, or inherits its timestamp from a pre-state row with
the same key. -/
theorem step_back (s : LedgerState) (op : Op)
    (hb : ∀ m ∈ s.messages, m.id < s.nextId)
    (m2 : Message) (hm2 : m2 ∈ (runOp s op).messages) :
    m2.delivered_at = none ∨ m2.status = Status.DELIVERED ∨
    (∃ m, m ∈ s.messages ∧ m.id = m2.id ∧ m2.delivered_at = m.delivered_at) := by
  rcases runOp_effect s op hb with heq | ⟨mN, hmsg, _, _, hprop⟩
    | ⟨mm, st, ec, now, hmm, hmsg, _⟩
  · rw [heq] at hm2
    exact Or.inr (Or.inr ⟨m2, hm2, rfl, rfl⟩)
  · rw [hmsg] at hm2
    rcases List.mem_append.mp hm2 with h | h
    · exact Or.inr (Or.inr ⟨m2, h, rfl, rfl⟩)
    · rw [List.mem_singleton.mp h]
      rcases hprop with ⟨hnone, _⟩ | ⟨hdelv, _⟩
      · exact Or.inl hnone
      · exact Or.inr (Or.inl hdelv)
  · rw [hmsg] at hm2
    unfold saveMsg at hm2
    obtain ⟨y, hy, hxy⟩ := List.mem_map.mp hm2
    by_cases hc : y.id = (set_status_from_twilio mm st ec now).id
    · rw [if_pos hc] at hxy
      rcases set_status_back mm st ec now with hkeep | ⟨hdelv, _⟩
      · refine Or.inr (Or.inr ⟨mm, hmm, ?_, ?_⟩)
        · rw [← hxy, set_status_id]
        · rw [← hxy]
          exact hkeep
      · rw [← hxy]
        exact Or.inr (Or.inl hdelv)
    · rw [if_neg hc] at hxy
      exact Or.inr (Or.inr ⟨y, hy, by rw [hxy], by rw [hxy]⟩)

/-- Forward along a whole trace: a delivery timestamp, once present on a
key, stays present on that key. -/
theorem fwd_runAll (s : LedgerState) (l : List Op) (hInv : Inv s)
    (m : Message) (hm : m ∈ s.messages) (hd : m.delivered_at ≠ none) :
    ∃ m2, m2 ∈ (runAll s l).messages ∧ m2.id = m.id ∧ m2.delivered_at ≠ none := by
  induction l generalizing s m with
  | nil => exact ⟨m, hm, rfl, hd⟩
  | cons op rest ih =>
    obtain ⟨m1, hm1, hid1, hd1⟩ := step_fwd s op hInv m hm hd
    obtain ⟨m2, hm2, hid2, hd2⟩ := ih (runOp s op) (runOp_inv s op hInv) m1 hm1 hd1
    exact ⟨m2, hm2, hid2.trans hid1, hd2⟩

/-- Backward along a whole trace: a row holding a delivery timestamp got
it at some step that set its status to DELIVERED. -/
theorem delivered_at_of_trace (profiles : List Profile) (ops : List Op) :
    ∀ m, m ∈ (runAll (initState profiles) ops).messages →
      m.delivered_at ≠ none →
      ∃ pre, Starts pre ops ∧ hasDelivered (runAll (initState profiles) pre) m.id := by
  induction ops using List.reverseRecOn with
  | nil =>
    intro m hm
    simp [runAll, initState] at hm
  | append_singleton ops op ih =>
    intro m2 hm2 hd2
    have hInv : Inv (runAll (initState profiles) ops) :=
      runAll_inv _ _ (init_inv profiles)
    rw [runAll_concat] at hm2
    rcases step_back _ op hInv.1 m2 hm2 with h0 | hDel | ⟨m, hm, hid, hdeq⟩
    · exact absurd h0 hd2
    · refine ⟨ops ++ [op], starts_rfl _, ?_⟩
      rw [runAll_concat]
      exact ⟨m2, hm2, rfl, hDel⟩
    · have hd : m.delivered_at ≠ none := by
        rw [← hdeq]
        exact hd2
      obtain ⟨pre, hpre, hdel⟩ := ih m hm hd
      refine ⟨pre, starts_extend op hpre, ?_⟩
      rw [← hid]
      exact hdel

/-- C7: in every ledger state reachable by a sequence of dispatch,
reconcile and receive operations from an empty ledger over any profile
directory, a message row's delivered_at is non-null exactly when its
status reached DELIVERED at some point along the trace. -/
theorem C7_delivered_at_iff_ever_delivered (profiles : List Profile)
    (ops : List Op) (m : Message)
    (hm : m ∈ (runAll (initState profiles) ops).messages) :
    m.delivered_at ≠ none ↔ everDelivered profiles ops m.id := by
  constructor
  · intro hd
    obtain ⟨pre, h1, h2⟩ := delivered_at_of_trace profiles ops m hm hd
    exact ⟨pre, h1, h2⟩
  · rintro ⟨pre, ⟨rest, hrest⟩, mdel, hmdel, hiddel, hstdel⟩
    have hInvPre : Inv (runAll (initState profiles) pre) :=
      runAll_inv _ _ (init_inv profiles)
    have hdpre : mdel.delivered_at ≠ none := hInvPre.2.2 mdel hmdel hstdel
    obtain ⟨m2, hm2, hid2, hd2⟩ := fwd_runAll _ rest hInvPre mdel hmdel hdpre
    have hallrw : runAll (initState profiles) ops
        = runAll (runAll (initState profiles) pre) rest := by
      rw [← hrest, runAll_append]
    rw [← hallrw] at hm2
    have hInvFin : Inv (runAll (initState profiles) ops) :=
      runAll_inv _ _ (init_inv profiles)
    have hmeq : m2 = m := row_id_inj hInvFin.2.1 hm2 hm (by rw [hid2, hiddel])
    rw [← hmeq]
    exact hd2

/-- Witness for C7: the row created by one inbound receive has a delivery
timestamp, and accordingly its key reached DELIVERED along that one-step
trace. -/
theorem C7_delivered_at_iff_ever_delivered_witness :
    (inboundRow (initState [profA]) profA "hi" (some "SMw") 4).delivered_at ≠ none ↔
      everDelivered [profA]
        [Op.receive (some "+15551234567") "hi" (some "SMw") 4]
        (inboundRow (initState [profA]) profA "hi" (some "SMw") 4).id :=
  C7_delivered_at_iff_ever_delivered [profA]
    [Op.receive (some "+15551234567") "hi" (some "SMw") 4]
    (inboundRow (initState [profA]) profA "hi" (some "SMw") 4) (by decide)

end SMSPro
